import Mathlib

/-!
A shallow embedding of the bootloader subsystem of `rust-simple-init`
(`src/services/bootloader.rs` and the sysfs helpers of `src/sysfs.rs`),
together with theorems settling the specification claims about it.

Filesystem and process effects are modelled by explicit environment
structures: a directory listing is a list of entries, a symlink read is a
function from paths to optional strings, a process spawn is an optional
process id.  Paths are modelled as lists of components, the root directory
being the empty list, so `PathBuf::pop` drops the last component and fails
exactly on the root.
-/

namespace SimpleInit

/-- A filesystem path, as its list of components (absolute, root = `[]`). -/
abbrev FsPath := List String

/-- `BootEntry` from `bootloader.rs`: one discovered bootable image. -/
structure BootEntry where
  kernel : FsPath
  initramfs : Option FsPath
  append : Option String
deriving Repr, DecidableEq

/-- `BlockState` from `bootloader.rs`.  `Mounting` holds the spawned mount
helper child; we record its process id (`child.id()`). -/
inductive BlockState where
  | Unchecked : BlockState
  | Mounting : Nat → BlockState
  | Scanning : BlockState
  | Complete : BlockState
deriving Repr, DecidableEq

/-- `BlockDeviceType` from `bootloader.rs`. -/
inductive BlockDeviceType where
  | Other : BlockDeviceType
  | Internal : BlockDeviceType
  | USB : BlockDeviceType
  | Network : BlockDeviceType
deriving Repr, DecidableEq

/-- `DeviceProbe` from `bootloader.rs`. -/
structure DeviceProbe where
  name : String
  device : FsPath
  devicetype : BlockDeviceType
  point : FsPath
  state : BlockState
  entries : List BootEntry
deriving Repr, DecidableEq

/-- Modelled from the spec: the `ServiceState` enum is declared in
`service.rs`, which is not under `src/`; its variants are taken from the
spec's data-model table (Inactive, Running, Ready, Stopped, Failed). -/
inductive ServiceState where
  | Inactive : ServiceState
  | Running : ServiceState
  | Ready : ServiceState
  | Stopped : ServiceState
  | Failed : ServiceState
deriving Repr, DecidableEq

/-- `EventAction` from `uevent.rs` (not under `src/`); modelled from the
spec: "action variant {Add, Remove, Change}". -/
inductive EventAction where
  | Add : EventAction
  | Remove : EventAction
  | Change : EventAction
deriving Repr, DecidableEq

/-- Modelled from the spec: `UeventRecord`, "mapping of field name → value
(unique keys)" plus an action; `get` looks a key up. -/
structure UeventRecord where
  fields : List (String × String)
  action : EventAction
deriving Repr, DecidableEq

/-- Key lookup on a `UeventRecord` (`dev.get(key)` in the source). -/
def UeventRecord.get (dev : UeventRecord) (key : String) : Option String :=
  (dev.fields.find? (fun kv => kv.1 = key)).map (fun kv => kv.2)

/-- Modelled from the spec: the `ServiceEvent` enum is declared in
`service.rs`, not under `src/`; variants per the spec's data-model table:
`ProcessExited{pid, exit status}` and `Device(UeventRecord)`.  The exit
status is modelled as the numeric exit code; `status.success()` in the
source is `status = 0` here. -/
inductive ServiceEvent where
  | ProcessExited : Nat → Nat → ServiceEvent
  | Device : UeventRecord → ServiceEvent
deriving Repr, DecidableEq

/-! ## sysfs model and device classification (`block_device_type`) -/

/-- Environment for the sysfs reads performed by `block_device_type`:
`blockDevicePath` models `block_device_path` (the canonicalized backing
device directory, or none), `readLinkFileName` models
`sysfs::read_link_file_name`, and `hasSubdir` models
`sysfs::path_has_subdir` (whether a directory listing contains the entry). -/
structure SysfsEnv where
  blockDevicePath : String → Option FsPath
  readLinkFileName : FsPath → Option String
  hasSubdir : FsPath → String → Bool

/-- The loop of `sysfs::walk_path_has_subdir`, with explicit fuel so the
recursion is structural (the loop runs at most `length + 1` times): check
the path, then keep popping the last component; `PathBuf::pop` fails
exactly at the root (`[]` here). -/
def walkAux (env : SysfsEnv) (subdir : String) : Nat → FsPath → Option FsPath
  | 0, _ => none
  | fuel + 1, base =>
    if env.hasSubdir base subdir then some base
    else if base = [] then none
    else walkAux env subdir fuel base.dropLast

/-- `sysfs::walk_path_has_subdir`: walk upward from `base` until a
directory containing `subdir` is found.  The fuel `base.length + 1` covers
every iteration the Rust loop can make. -/
def walk_path_has_subdir (env : SysfsEnv) (subdir : String) (base : FsPath) :
    Option FsPath :=
  walkAux env subdir (base.length + 1) base

/-- `block_device_type` from `bootloader.rs`: classify a block device name
from its backing-device sysfs chain. -/
def block_device_type (env : SysfsEnv) (name : String) : BlockDeviceType :=
  match env.blockDevicePath name with
  | some devicepath =>
    match env.readLinkFileName (devicepath ++ ["subsystem"]) with
    | some subsystem =>
      if subsystem = "virtio" then BlockDeviceType.Internal
      else if subsystem = "scsi" then
        match walk_path_has_subdir env "scsi_host" devicepath with
        | some host =>
          match env.readLinkFileName (host ++ ["..", "subsystem"]) with
          | some sub2 =>
            if sub2 = "usb" then BlockDeviceType.USB else BlockDeviceType.Internal
          | none => BlockDeviceType.Internal
        | none => BlockDeviceType.Internal
      else BlockDeviceType.Other
    | none => BlockDeviceType.Other
  | none => BlockDeviceType.Other

/-- Definition following the spec's words for the scsi branch of
`block_device_type` ("walks upward looking for a `scsi_host` ancestor, then
inspects that ancestor's own subsystem"): identical to `block_device_type`
except that the second subsystem read is the found ancestor's own
`subsystem` link (`host ++ ["subsystem"]`), not `host ++ ["..", "subsystem"]`
as in the source.  Used to compare the spec's wording with the code. -/
def block_device_type_specC9 (env : SysfsEnv) (name : String) : BlockDeviceType :=
  match env.blockDevicePath name with
  | some devicepath =>
    match env.readLinkFileName (devicepath ++ ["subsystem"]) with
    | some subsystem =>
      if subsystem = "virtio" then BlockDeviceType.Internal
      else if subsystem = "scsi" then
        match walk_path_has_subdir env "scsi_host" devicepath with
        | some host =>
          match env.readLinkFileName (host ++ ["subsystem"]) with
          | some sub2 =>
            if sub2 = "usb" then BlockDeviceType.USB else BlockDeviceType.Internal
          | none => BlockDeviceType.Internal
        | none => BlockDeviceType.Internal
      else BlockDeviceType.Other
    | none => BlockDeviceType.Other
  | none => BlockDeviceType.Other

/-! ## DeviceProbe operations -/

/-- One entry of a directory listing, as `scan` observes it: its file name
(`entry.file_name()`, assumed valid UTF-8 as `to_str` succeeds) and whether
`entry.path().is_dir()`. -/
structure DirEntry where
  name : String
  is_dir : Bool
deriving Repr, DecidableEq

/-- Environment for one `scan` call: the result of
`self.point.join("EFI").read_dir()` — `none` when the read fails, otherwise
the listing in iteration order. -/
structure ScanEnv where
  efiDir : Option (List DirEntry)
deriving Repr, DecidableEq

/-- `str::to_lowercase` as `scan` uses it, modelled character-wise
(`Char.toLower` lowercases ASCII letters, which covers the ASCII loader
file names the comparison is about). -/
def strToLower (s : String) : String := ⟨s.data.map Char.toLower⟩

/-- The loop body of `scan`: the first listing entry that is not a
directory and whose name lowercases to `"bootx64.efi"` (the source's
`default`, itself `"bootx64.efi".to_lowercase()`). -/
def scanFind : List DirEntry → Option DirEntry
  | [] => none
  | e :: rest =>
    if e.is_dir then scanFind rest
    else if strToLower e.name = "bootx64.efi" then some e
    else scanFind rest

/-- `DeviceProbe::scan`: search `EFI/` for the loader file; on the first
match set state to `Complete` and push one `BootEntry` (kernel =
`EFI/<filename>`, no initramfs, no append); otherwise (no match, or the
directory cannot be read) just set state to `Complete`. -/
def DeviceProbe.scan (env : ScanEnv) (p : DeviceProbe) : DeviceProbe :=
  match env.efiDir with
  | some entries =>
    match scanFind entries with
    | some e =>
      { p with
        state := BlockState.Complete,
        entries := p.entries ++ [⟨["EFI", e.name], none, none⟩] }
    | none => { p with state := BlockState.Complete }
  | none => { p with state := BlockState.Complete }

/-- `DeviceProbe::event`: consume a `ProcessExited` event only in state
`Mounting` with a matching pid; non-zero exit status goes straight to
`Complete`, zero exit goes to `Scanning` and synchronously runs `scan`.
Returns the updated probe and whether the event was consumed. -/
def DeviceProbe.event (env : ScanEnv) (p : DeviceProbe) (e : ServiceEvent) :
    DeviceProbe × Bool :=
  match e with
  | ServiceEvent.ProcessExited pid status =>
    match p.state with
    | BlockState.Mounting child =>
      if child ≠ pid then (p, false)
      else if status ≠ 0 then ({ p with state := BlockState.Complete }, true)
      else (DeviceProbe.scan env { p with state := BlockState.Scanning }, true)
    | _ => (p, false)
  | ServiceEvent.Device _ => (p, false)

/-- Environment for one `mount` call: whether
`procfs::device_mounted(&self.device)` holds, whether
`std::fs::create_dir_all(&self.point)` succeeds, and the result of
`command.spawn()` (the child's pid, or `none` on spawn failure). -/
structure MountEnv where
  device_mounted : Bool
  create_dir_ok : Bool
  spawn : Option Nat
deriving Repr, DecidableEq

/-- `DeviceProbe::mount`.  The boolean is `true` for `Ok(())` and `false`
for `Err`: an already-mounted device or a failed `create_dir_all` is an
error (probe unchanged); a successful spawn moves to `Mounting(pid)`, a
spawn failure moves to `Complete` — both returning `Ok`. -/
def DeviceProbe.mount (env : MountEnv) (p : DeviceProbe) : DeviceProbe × Bool :=
  if env.device_mounted then (p, false)
  else if env.create_dir_ok = false then (p, false)
  else
    match env.spawn with
    | some pid => ({ p with state := BlockState.Mounting pid }, true)
    | none => ({ p with state := BlockState.Complete }, true)

/-- Environment for one `DeviceProbe::new` call: the result of
`block_device_node(name)` (`none` for `Err`) and the sysfs state consulted
by `block_device_type`. -/
structure NewEnv where
  node : String → Option FsPath
  sysfs : SysfsEnv

/-- `DeviceProbe::new`: resolve the character device node (failure
propagates as `none`), classify the device, build the mount point
`/var/run/bootloader/mounts/<name>`, and start `Unchecked` with no
entries. -/
def DeviceProbe.new (env : NewEnv) (name : String) : Option DeviceProbe :=
  match env.node name with
  | some chardev =>
    some
      { name := name,
        device := chardev,
        devicetype := block_device_type env.sysfs name,
        point := ["var", "run", "bootloader", "mounts", name],
        state := BlockState.Unchecked,
        entries := [] }
  | none => none

/-! ## Bootloader operations -/

/-- `Bootloader` from `bootloader.rs`: the collection of probes, in
creation order. -/
structure Bootloader where
  checked : List DeviceProbe
deriving Repr, DecidableEq

/-- `Bootloader::new`. -/
def Bootloader.new : Bootloader := { checked := [] }

/-- `Bootloader::probe_partition`: no-op (returning `false`) when a probe
with the name already exists; otherwise construct a probe (`new` failure
returns `false`, nothing added) and mount it — an `Ok` mount pushes the
probe, an `Err` mount drops it — returning `true` in both cases. -/
def Bootloader.probe_partition (envN : NewEnv) (envM : MountEnv)
    (b : Bootloader) (name : String) : Bootloader × Bool :=
  if b.checked.any (fun i => i.name = name) then (b, false)
  else
    match DeviceProbe.new envN name with
    | some block =>
      match DeviceProbe.mount envM block with
      | (block2, true) => ({ checked := b.checked ++ [block2] }, true)
      | (_, false) => (b, true)
    | none => (b, false)

/-- The inner loop of `select_boot_entry`: the first probe in registration
order that is `Complete`, has the wanted device type and a non-empty
entries list; its first entry is returned. -/
def selectInType (t : BlockDeviceType) : List DeviceProbe → Option BootEntry
  | [] => none
  | i :: rest =>
    if i.state = BlockState.Complete ∧ i.devicetype = t ∧ i.entries ≠ [] then
      i.entries.head?
    else selectInType t rest

/-- `Bootloader::select_boot_entry`: scan priority types in order and,
within a type, probes in registration order. -/
def Bootloader.select_boot_entry (b : Bootloader) :
    List BlockDeviceType → Option BootEntry
  | [] => none
  | t :: ts =>
    match selectInType t b.checked with
    | some e => some e
    | none => b.select_boot_entry ts

/-- Definition following the spec's words for `select_boot_entry`: the
first boot entry obtained by scanning the priority types in order and,
within a type, the probes in registration order, keeping only probes in
the `Complete` state with a non-empty entries list, and taking the first
entry of the first such probe. -/
def select_boot_entry_spec (order : List BlockDeviceType)
    (checked : List DeviceProbe) : Option BootEntry :=
  order.findSome? fun t =>
    (checked.find? fun i =>
      decide (i.state = BlockState.Complete ∧ i.devicetype = t ∧ i.entries ≠ [])).bind
      fun i => i.entries.head?

/-- `Bootloader::state` (the `Service` impl): `Inactive` when the probe
collection is empty, `Running` otherwise. -/
def Bootloader.state (b : Bootloader) : ServiceState :=
  if b.checked.length = 0 then ServiceState.Inactive else ServiceState.Running

/-- The probe loop of `Bootloader::event`: offer the event to every probe
in order, or-ing the consumed flags.  Each probe's potential `scan` reads
its own mount point, so the environment supplies a listing per position. -/
def probesEvent (envs : Nat → ScanEnv) (e : ServiceEvent) :
    List DeviceProbe → Nat → List DeviceProbe × Bool
  | [], _ => ([], false)
  | p :: rest, k =>
    let r := DeviceProbe.event (envs k) p e
    let rrest := probesEvent envs e rest (k + 1)
    (r.1 :: rrest.1, r.2 || rrest.2)

/-- Environment for one `Bootloader::event` call: per-probe scan listings,
the `block_device_has_partitions` observation, and the environments of the
`probe_partition` call the hotplug path may make. -/
structure BootEventEnv where
  scanEnvs : Nat → ScanEnv
  has_partitions : String → Bool
  envN : NewEnv
  envM : MountEnv

/-- The `Device` arm of `Bootloader::event`, reached when no probe
consumed the event: a hotplug record with `SUBSYSTEM=block`, action `Add`
and a `DEVNAME` without partitions triggers `probe_partition`; the arm
returns `false` in every case. -/
def hotplugAdd (env : BootEventEnv) (b2 : Bootloader) (dev : UeventRecord) :
    Bootloader × Bool :=
  match dev.get "SUBSYSTEM" with
  | some subsystem =>
    if subsystem = "block" then
      if dev.action = EventAction.Add then
        match dev.get "DEVNAME" with
        | some devname =>
          if BootEventEnv.has_partitions env devname then (b2, false)
          else ((b2.probe_partition env.envN env.envM devname).1, false)
        | none => (b2, false)
      else (b2, false)
    else (b2, false)
  | none => (b2, false)

/-- `Bootloader::event` (the `Service` impl): offer the event to every
probe; if consumed, return `true`; otherwise hand a `Device` event to the
hotplug arm; every non-consumed path returns `false`. -/
def Bootloader.event (env : BootEventEnv) (b : Bootloader) (e : ServiceEvent) :
    Bootloader × Bool :=
  match probesEvent env.scanEnvs e b.checked 0 with
  | (checked2, true) => ({ checked := checked2 }, true)
  | (checked2, false) =>
    match e with
    | ServiceEvent.Device dev => hotplugAdd env { checked := checked2 } dev
    | _ => ({ checked := checked2 }, false)

/-! ## Lifecycle relations -/

/-- Rank of a `BlockState` in the forward order
Unchecked → Mounting → Scanning → Complete. -/
def BlockState.rank : BlockState → Nat
  | BlockState.Unchecked => 0
  | BlockState.Mounting _ => 1
  | BlockState.Scanning => 2
  | BlockState.Complete => 3

/-- One operation the program applies to a probe: `mount`, invoked by
`probe_partition` only on a freshly constructed probe (state `Unchecked`),
or `event`, with any event and environment (`scan` runs only inside
`event`). -/
inductive ProbeStep : DeviceProbe → DeviceProbe → Prop where
  | mount (env : MountEnv) (p : DeviceProbe) (hu : p.state = BlockState.Unchecked) :
      ProbeStep p (DeviceProbe.mount env p).1
  | ev (env : ScanEnv) (e : ServiceEvent) (p : DeviceProbe) :
      ProbeStep p (DeviceProbe.event env p e).1

/-- One operation the program applies to the `Bootloader` collection:
a `probe_partition` call (from `start` or from the hotplug path) or a
dispatched `event`. -/
inductive BootOp where
  | probe : NewEnv → MountEnv → String → BootOp
  | ev : BootEventEnv → ServiceEvent → BootOp

/-- Apply one `BootOp`. -/
def Bootloader.step (b : Bootloader) : BootOp → Bootloader
  | BootOp.probe envN envM name => (b.probe_partition envN envM name).1
  | BootOp.ev env e => (b.event env e).1

/-- Apply a sequence of `BootOp`s in order. -/
def Bootloader.run (b : Bootloader) (ops : List BootOp) : Bootloader :=
  ops.foldl Bootloader.step b

/-- The probe invariant maintained over its lifecycle: before `Complete`
the entries list is empty, and it never holds more than one entry. -/
def ProbeInv (p : DeviceProbe) : Prop :=
  (p.state ≠ BlockState.Complete → p.entries = []) ∧ p.entries.length ≤ 1

/-- A concrete sysfs environment with nothing in it, used by witnesses. -/
def cSysfs : SysfsEnv := ⟨fun _ => none, fun _ => none, fun _ _ => false⟩

/-- A concrete construction environment resolving `/dev/<name>`, used by
witnesses and counterexamples. -/
def cNewEnv : NewEnv := ⟨fun n => some ["dev", n], cSysfs⟩

/-- A concrete mount environment whose spawn succeeds with pid 42. -/
def cMountSpawn : MountEnv := ⟨false, true, some 42⟩

/-- A concrete mount environment whose spawn fails. -/
def cMountNoSpawn : MountEnv := ⟨false, true, none⟩

/-- The probe `DeviceProbe.new cNewEnv "sda1"` constructs. -/
def wProbe0 : DeviceProbe :=
  { name := "sda1", device := ["dev", "sda1"],
    devicetype := BlockDeviceType.Other,
    point := ["var", "run", "bootloader", "mounts", "sda1"],
    state := BlockState.Unchecked, entries := [] }

/-- Concrete sysfs chain for the C9 counterexample: `sda` backs onto
`/sys/dev/disk` whose subsystem is `scsi`; the upward walk finds
`/sys/dev` (it contains `scsi_host`); that directory's own `subsystem`
link resolves to `usb`, while the path the code reads,
`/sys/dev/../subsystem`, resolves to nothing. -/
def c9Env : SysfsEnv :=
  { blockDevicePath := fun n => if n = "sda" then some ["sys", "dev", "disk"] else none,
    readLinkFileName := fun p =>
      if p = ["sys", "dev", "disk", "subsystem"] then some "scsi"
      else if p = ["sys", "dev", "subsystem"] then some "usb"
      else none,
    hasSubdir := fun p s => p == ["sys", "dev"] && s == "scsi_host" }

/-- A concrete boot entry, used by witnesses. -/
def sampleEntry : BootEntry := ⟨["EFI", "bootx64.efi"], none, none⟩

/-- A concrete completed internal probe, used by witnesses. -/
def sampleInternal : DeviceProbe :=
  { name := "sda1", device := ["dev", "sda1"],
    devicetype := BlockDeviceType.Internal,
    point := ["var", "run", "bootloader", "mounts", "sda1"],
    state := BlockState.Complete, entries := [sampleEntry] }

/-- A concrete completed USB probe, used by witnesses. -/
def sampleUSB : DeviceProbe :=
  { name := "sdb1", device := ["dev", "sdb1"],
    devicetype := BlockDeviceType.USB,
    point := ["var", "run", "bootloader", "mounts", "sdb1"],
    state := BlockState.Complete, entries := [⟨["EFI", "BOOTX64.EFI"], none, none⟩] }

/-! ## Helper lemmas -/

/-- The inner selection loop is a `find?` over the good-probe predicate
followed by taking the first entry. -/
lemma selectInType_eq_find (t : BlockDeviceType) (l : List DeviceProbe) :
    selectInType t l =
      (l.find? fun i =>
        decide (i.state = BlockState.Complete ∧ i.devicetype = t ∧ i.entries ≠ [])).bind
        fun i => i.entries.head? := by
  induction l with
  | nil => rfl
  | cons i rest ih =>
    by_cases h : i.state = BlockState.Complete ∧ i.devicetype = t ∧ i.entries ≠ []
    · simp [selectInType, List.find?_cons, h]
    · simp [selectInType, List.find?_cons, h, ih]

/-- `select_boot_entry` agrees with the spec-level description. -/
lemma select_boot_entry_eq_spec (b : Bootloader) (order : List BlockDeviceType) :
    b.select_boot_entry order = select_boot_entry_spec order b.checked := by
  induction order with
  | nil => rfl
  | cons t ts ih =>
    rw [Bootloader.select_boot_entry, select_boot_entry_spec, List.findSome?_cons,
      ← selectInType_eq_find]
    cases h : selectInType t b.checked with
    | some e => rfl
    | none => rw [ih, select_boot_entry_spec]

/-- When no probe is good for a type, the inner loop returns nothing. -/
lemma selectInType_eq_none (t : BlockDeviceType) (l : List DeviceProbe)
    (h : ∀ p ∈ l, ¬(p.state = BlockState.Complete ∧ p.devicetype = t ∧ p.entries ≠ [])) :
    selectInType t l = none := by
  induction l with
  | nil => rfl
  | cons i rest ih =>
    have hi := h i (List.mem_cons_self i rest)
    rw [selectInType, if_neg hi]
    exact ih fun p hp => h p (List.mem_cons_of_mem i hp)

/-- `scan` always leaves the probe in state `Complete`. -/
lemma scan_state (env : ScanEnv) (p : DeviceProbe) :
    (DeviceProbe.scan env p).state = BlockState.Complete := by
  unfold DeviceProbe.scan
  split
  · split <;> rfl
  · rfl

/-- `scan` never changes the probe's name. -/
lemma scan_name (env : ScanEnv) (p : DeviceProbe) :
    (DeviceProbe.scan env p).name = p.name := by
  unfold DeviceProbe.scan
  split
  · split <;> rfl
  · rfl

/-- `scan` appends at most one entry. -/
lemma scan_entries (env : ScanEnv) (p : DeviceProbe) :
    (DeviceProbe.scan env p).entries = p.entries
    ∨ ∃ f : DirEntry,
        (DeviceProbe.scan env p).entries
          = p.entries ++ [⟨["EFI", f.name], none, none⟩] := by
  unfold DeviceProbe.scan
  split
  · split
    · exact Or.inr ⟨_, rfl⟩
    · exact Or.inl rfl
  · exact Or.inl rfl

/-- `scanFind` returns nothing exactly when no listing entry is a
non-directory file whose lowercased name is the loader name. -/
lemma scanFind_eq_none_iff (l : List DirEntry) :
    scanFind l = none
      ↔ ∀ f ∈ l, f.is_dir = true ∨ ¬strToLower f.name = "bootx64.efi" := by
  induction l with
  | nil => simp [scanFind]
  | cons e rest ih =>
    by_cases hd : e.is_dir
    · simp [scanFind, hd, ih]
    · by_cases hn : strToLower e.name = "bootx64.efi"
      · simp [scanFind, hd, hn]
      · simp [scanFind, hd, hn, ih]

/-- An event is consumed, the probe becomes `Complete` and at most one
entry is appended, exactly as `DeviceProbe::event` does on a matching
successful mount exit. -/
lemma event_mounting_success (p : DeviceProbe) (pid : Nat) (env : ScanEnv)
    (hm : p.state = BlockState.Mounting pid) :
    DeviceProbe.event env p (ServiceEvent.ProcessExited pid 0)
      = (DeviceProbe.scan env { p with state := BlockState.Scanning }, true) := by
  simp [DeviceProbe.event, hm]

/-- C3: in state `Mounting pid`, a `ProcessExited` event with the same pid
and exit status 0 is consumed, moves the probe through `Scanning` into
`Complete`; when the EFI listing's first non-directory entry whose name
case-insensitively equals `bootx64.efi` is `f`, the probe ends with the
single entry `EFI/<f.name>` (no initramfs, no append); when the listing
has such a file at all the probe ends with exactly one entry; and when no
such file exists (or the directory is unreadable) it ends with zero
entries. -/
theorem event_mount_success_scans (p : DeviceProbe) (pid : Nat) (env : ScanEnv)
    (hm : p.state = BlockState.Mounting pid) (he : p.entries = []) :
    (DeviceProbe.event env p (ServiceEvent.ProcessExited pid 0)).2 = true
    ∧ ((DeviceProbe.event env p (ServiceEvent.ProcessExited pid 0)).1).state
        = BlockState.Complete
    ∧ (∀ l f, env.efiDir = some l → scanFind l = some f →
        ((DeviceProbe.event env p (ServiceEvent.ProcessExited pid 0)).1).entries
          = [⟨["EFI", f.name], none, none⟩])
    ∧ (∀ l, env.efiDir = some l →
        (∃ f ∈ l, f.is_dir = false ∧ strToLower f.name = "bootx64.efi") →
        ((DeviceProbe.event env p (ServiceEvent.ProcessExited pid 0)).1).entries.length
          = 1)
    ∧ (∀ l, env.efiDir = some l → scanFind l = none →
        ((DeviceProbe.event env p (ServiceEvent.ProcessExited pid 0)).1).entries = [])
    ∧ (env.efiDir = none →
        ((DeviceProbe.event env p (ServiceEvent.ProcessExited pid 0)).1).entries = []) := by
  rw [event_mounting_success p pid env hm]
  refine ⟨rfl, scan_state env _, ?_, ?_, ?_, ?_⟩
  · intro l f hl hf
    unfold DeviceProbe.scan
    rw [hl]
    simp only [hf, he]
    rfl
  · intro l hl hex
    cases hfind : scanFind l with
    | none =>
      rw [scanFind_eq_none_iff] at hfind
      obtain ⟨f, hfl, hfd, hfn⟩ := hex
      rcases hfind f hfl with hd | hn
      · rw [hfd] at hd; exact absurd hd (by decide)
      · exact absurd hfn hn
    | some f =>
      unfold DeviceProbe.scan
      rw [hl]
      simp only [hfind, he]
      rfl
  · intro l hl hfind
    unfold DeviceProbe.scan
    rw [hl]
    simp only [hfind, he]
  · intro hl
    unfold DeviceProbe.scan
    rw [hl]
    simp only [he]

/-- Witness for C3: a concrete probe mounting as pid 5 whose EFI listing
holds `BOOTX64.EFI`; the success exit yields exactly that boot entry. -/
theorem event_mount_success_scans_witness :
    ((DeviceProbe.event ⟨some [⟨"BOOTX64.EFI", false⟩]⟩
        { name := "sda1", device := ["dev", "sda1"],
          devicetype := BlockDeviceType.Internal,
          point := ["var", "run", "bootloader", "mounts", "sda1"],
          state := BlockState.Mounting 5, entries := [] }
        (ServiceEvent.ProcessExited 5 0)).1).entries
      = [⟨["EFI", "BOOTX64.EFI"], none, none⟩] :=
  (event_mount_success_scans
    { name := "sda1", device := ["dev", "sda1"],
      devicetype := BlockDeviceType.Internal,
      point := ["var", "run", "bootloader", "mounts", "sda1"],
      state := BlockState.Mounting 5, entries := [] }
    5 ⟨some [⟨"BOOTX64.EFI", false⟩]⟩ rfl rfl).2.2.1
    [⟨"BOOTX64.EFI", false⟩] ⟨"BOOTX64.EFI", false⟩ rfl (by decide)

/-- C4: in state `Mounting pid`, a `ProcessExited` event with the same pid
and a non-zero exit status is consumed and moves the probe straight to
`Complete`, leaving the entries untouched (`scan` is not invoked: the
result does not depend on the scan environment). -/
theorem event_mount_failure_completes (p : DeviceProbe) (pid status : Nat)
    (env : ScanEnv) (hm : p.state = BlockState.Mounting pid) (hs : status ≠ 0) :
    DeviceProbe.event env p (ServiceEvent.ProcessExited pid status)
      = ({ p with state := BlockState.Complete }, true) := by
  simp [DeviceProbe.event, hm, hs]

/-- Witness for C4: mount helper exits with status 32; the probe completes
with zero entries. -/
theorem event_mount_failure_completes_witness :
    DeviceProbe.event ⟨some [⟨"BOOTX64.EFI", false⟩]⟩
        { name := "sda1", device := ["dev", "sda1"],
          devicetype := BlockDeviceType.Internal,
          point := ["var", "run", "bootloader", "mounts", "sda1"],
          state := BlockState.Mounting 5, entries := [] }
        (ServiceEvent.ProcessExited 5 32)
      = ({ name := "sda1", device := ["dev", "sda1"],
           devicetype := BlockDeviceType.Internal,
           point := ["var", "run", "bootloader", "mounts", "sda1"],
           state := BlockState.Complete, entries := [] }, true) :=
  event_mount_failure_completes
    { name := "sda1", device := ["dev", "sda1"],
      devicetype := BlockDeviceType.Internal,
      point := ["var", "run", "bootloader", "mounts", "sda1"],
      state := BlockState.Mounting 5, entries := [] }
    5 32 ⟨some [⟨"BOOTX64.EFI", false⟩]⟩ rfl (by decide)

/-- C5: in state `Mounting childpid`, a `ProcessExited` event whose pid
differs is not consumed and the probe — every field of it — is unchanged. -/
theorem event_pid_mismatch_frame (p : DeviceProbe) (childpid pid status : Nat)
    (env : ScanEnv) (hm : p.state = BlockState.Mounting childpid)
    (hne : childpid ≠ pid) :
    DeviceProbe.event env p (ServiceEvent.ProcessExited pid status) = (p, false) := by
  simp [DeviceProbe.event, hm, hne]

/-- Witness for C5: pid 9 does not match the recorded child pid 5. -/
theorem event_pid_mismatch_frame_witness :
    DeviceProbe.event ⟨some [⟨"BOOTX64.EFI", false⟩]⟩
        { name := "sda1", device := ["dev", "sda1"],
          devicetype := BlockDeviceType.Internal,
          point := ["var", "run", "bootloader", "mounts", "sda1"],
          state := BlockState.Mounting 5, entries := [] }
        (ServiceEvent.ProcessExited 9 0)
      = ({ name := "sda1", device := ["dev", "sda1"],
           devicetype := BlockDeviceType.Internal,
           point := ["var", "run", "bootloader", "mounts", "sda1"],
           state := BlockState.Mounting 5, entries := [] }, false) :=
  event_pid_mismatch_frame
    { name := "sda1", device := ["dev", "sda1"],
      devicetype := BlockDeviceType.Internal,
      point := ["var", "run", "bootloader", "mounts", "sda1"],
      state := BlockState.Mounting 5, entries := [] }
    5 9 0 ⟨some [⟨"BOOTX64.EFI", false⟩]⟩ rfl (by decide)

/-- `mount` never changes the entries. -/
lemma mount_entries (env : MountEnv) (p : DeviceProbe) :
    ((DeviceProbe.mount env p).1).entries = p.entries := by
  unfold DeviceProbe.mount
  split
  · rfl
  · split
    · rfl
    · split <;> rfl

/-- `mount` never changes the name. -/
lemma mount_name (env : MountEnv) (p : DeviceProbe) :
    ((DeviceProbe.mount env p).1).name = p.name := by
  unfold DeviceProbe.mount
  split
  · rfl
  · split
    · rfl
    · split <;> rfl

/-- A probe in state `Complete` ignores every event, unchanged. -/
lemma event_complete_frozen (env : ScanEnv) (e : ServiceEvent) (p : DeviceProbe)
    (hc : p.state = BlockState.Complete) :
    DeviceProbe.event env p e = (p, false) := by
  cases e with
  | ProcessExited pid status => simp [DeviceProbe.event, hc]
  | Device dev => rfl

/-- Every `event` outcome: unchanged, straight to `Complete` from
`Mounting`, or through `Scanning` into `scan` from `Mounting`. -/
lemma event_cases (env : ScanEnv) (e : ServiceEvent) (p : DeviceProbe) :
    DeviceProbe.event env p e = (p, false)
    ∨ (∃ pid, p.state = BlockState.Mounting pid
        ∧ (DeviceProbe.event env p e).1 = { p with state := BlockState.Complete })
    ∨ (∃ pid, p.state = BlockState.Mounting pid
        ∧ (DeviceProbe.event env p e).1
            = DeviceProbe.scan env { p with state := BlockState.Scanning }) := by
  cases e with
  | Device dev => exact Or.inl rfl
  | ProcessExited pid status =>
    cases hs : p.state with
    | Mounting child =>
      by_cases hc : child ≠ pid
      · exact Or.inl (by simp [DeviceProbe.event, hs, hc])
      · by_cases hst : status ≠ 0
        · exact Or.inr (Or.inl ⟨child, rfl, by simp [DeviceProbe.event, hs, hc, hst]⟩)
        · exact Or.inr (Or.inr ⟨child, rfl, by simp [DeviceProbe.event, hs, hc, hst]⟩)
    | Unchecked => exact Or.inl (by simp [DeviceProbe.event, hs])
    | Scanning => exact Or.inl (by simp [DeviceProbe.event, hs])
    | Complete => exact Or.inl (by simp [DeviceProbe.event, hs])

/-- `event` never changes the probe's name. -/
lemma event_name (env : ScanEnv) (e : ServiceEvent) (p : DeviceProbe) :
    ((DeviceProbe.event env p e).1).name = p.name := by
  rcases event_cases env e p with hcase | ⟨pid, hs, hq⟩ | ⟨pid, hs, hq⟩
  · rw [hcase]
  · rw [hq]
  · rw [hq, scan_name]

/-- Every `BlockState` rank is at most that of `Complete`. -/
lemma rank_le_three (s : BlockState) : s.rank ≤ 3 := by
  cases s <;> simp [BlockState.rank]

/-- A single program step never lowers the state rank. -/
lemma probeStep_rank_mono {p q : DeviceProbe} (h : ProbeStep p q) :
    p.state.rank ≤ q.state.rank := by
  cases h with
  | mount env p hu =>
    rw [hu]
    exact Nat.zero_le _
  | ev env e p =>
    rcases event_cases env e p with hcase | ⟨pid, hs, hq⟩ | ⟨pid, hs, hq⟩
    · rw [hcase]
    · rw [hq]
      exact rank_le_three _
    · rw [hq, scan_state]
      exact rank_le_three _

/-- A single program step from a `Complete` probe changes nothing. -/
lemma probeStep_complete {p q : DeviceProbe} (h : ProbeStep p q)
    (hc : p.state = BlockState.Complete) : q = p := by
  cases h with
  | mount env p hu =>
    rw [hu] at hc
    exact absurd hc (by decide)
  | ev env e p => rw [event_complete_frozen env e p hc]

/-- A single program step preserves the probe invariant. -/
lemma probeStep_inv {p q : DeviceProbe} (h : ProbeStep p q) (hp : ProbeInv p) :
    ProbeInv q := by
  cases h with
  | mount env p hu =>
    have he : p.entries = [] := hp.1 (by rw [hu]; decide)
    constructor
    · intro _
      rw [mount_entries, he]
    · rw [mount_entries, he]
      decide
  | ev env e p =>
    rcases event_cases env e p with hcase | ⟨pid, hs, hq⟩ | ⟨pid, hs, hq⟩
    · rw [hcase]
      exact hp
    · rw [hq]
      have he : p.entries = [] := hp.1 (by rw [hs]; simp)
      exact ⟨fun hne => absurd rfl hne, hp.2⟩
    · rw [hq]
      have he : p.entries = [] := hp.1 (by rw [hs]; simp)
      constructor
      · intro hne
        exact absurd (scan_state env _) hne
      · rcases scan_entries env { p with state := BlockState.Scanning } with h1 | ⟨f, h2⟩
        · rw [h1]
          exact hp.2
        · rw [h2]
          simp [he]

/-- `new` yields an `Unchecked` probe with no entries carrying the name. -/
lemma new_fields (envN : NewEnv) (name : String) (p0 : DeviceProbe)
    (h : DeviceProbe.new envN name = some p0) :
    p0.entries = [] ∧ p0.state = BlockState.Unchecked ∧ p0.name = name := by
  unfold DeviceProbe.new at h
  cases hn : envN.node name with
  | none =>
    rw [hn] at h
    cases h
  | some chardev =>
    rw [hn] at h
    obtain rfl := Option.some.inj h
    exact ⟨rfl, rfl, rfl⟩

/-- `mount` returns `Err` (probe unchanged) exactly on an already-mounted
device or a failed mount-point creation. -/
lemma mount_err (env : MountEnv) (p : DeviceProbe)
    (h : env.device_mounted = true ∨ env.create_dir_ok = false) :
    DeviceProbe.mount env p = (p, false) := by
  unfold DeviceProbe.mount
  rcases h with h | h
  · rw [if_pos h]
  · by_cases hd : env.device_mounted
    · rw [if_pos hd]
    · rw [if_neg hd, if_pos h]

/-- A failed spawn still returns `Ok`, with the probe `Complete`. -/
lemma mount_spawn_none (env : MountEnv) (p : DeviceProbe)
    (h1 : env.device_mounted = false) (h2 : env.create_dir_ok = true)
    (h3 : env.spawn = none) :
    DeviceProbe.mount env p = ({ p with state := BlockState.Complete }, true) := by
  simp [DeviceProbe.mount, h1, h2, h3]

/-- A successful spawn returns `Ok` with the probe `Mounting`. -/
lemma mount_spawn_some (env : MountEnv) (p : DeviceProbe) (pid : Nat)
    (h1 : env.device_mounted = false) (h2 : env.create_dir_ok = true)
    (h3 : env.spawn = some pid) :
    DeviceProbe.mount env p = ({ p with state := BlockState.Mounting pid }, true) := by
  simp [DeviceProbe.mount, h1, h2, h3]

/-- The membership check at the head of `probe_partition`. -/
lemma checked_any_iff (b : Bootloader) (name : String) :
    b.checked.any (fun i => i.name = name) = true
      ↔ ∃ p ∈ b.checked, p.name = name := by
  simp [List.any_eq_true]

/-! ## Claims (probe lifecycle) -/

/-- C2: along every sequence of operations the program applies to a probe
(`mount` at its construction site, then dispatched events, `scan` running
inside them), the `BlockState` rank in the order Unchecked → Mounting →
Scanning → Complete never decreases, and once the state is `Complete` the
probe — in particular its state — never changes again. -/
theorem blockstate_forward_only (p q : DeviceProbe)
    (h : Relation.ReflTransGen ProbeStep p q) :
    p.state.rank ≤ q.state.rank
    ∧ (p.state = BlockState.Complete → q = p) := by
  induction h with
  | refl => exact ⟨le_refl _, fun _ => rfl⟩
  | tail hab hbc ih =>
    refine ⟨le_trans ih.1 (probeStep_rank_mono hbc), fun hc => ?_⟩
    have hb := ih.2 hc
    rw [hb] at hbc
    rw [probeStep_complete hbc hc]

/-- Witness for C2: a fresh probe mounting with pid 7 moves forward. -/
theorem blockstate_forward_only_witness :
    BlockState.rank wProbe0.state
      ≤ BlockState.rank ((DeviceProbe.mount ⟨false, true, some 7⟩ wProbe0).1).state :=
  (blockstate_forward_only wProbe0 _
    (Relation.ReflTransGen.single
      (ProbeStep.mount ⟨false, true, some 7⟩ wProbe0 rfl))).1

/-- C6: a freshly constructed probe starts with no entries, and along
every sequence of program operations the entries list holds at most one
member; moreover the list is still empty whenever the state has not yet
reached `Complete`, so the single append happens only during the `scan`
step that completes the probe. -/
theorem entries_at_most_one (envN : NewEnv) (name : String) (p0 q : DeviceProbe)
    (hnew : DeviceProbe.new envN name = some p0)
    (h : Relation.ReflTransGen ProbeStep p0 q) :
    q.entries.length ≤ 1 ∧ (q.state ≠ BlockState.Complete → q.entries = []) := by
  have hinv0 : ProbeInv p0 := by
    obtain ⟨he, hs, _⟩ := new_fields envN name p0 hnew
    exact ⟨fun _ => he, by rw [he]; decide⟩
  have hinv : ProbeInv q := by
    induction h with
    | refl => exact hinv0
    | tail hab hbc ih => exact probeStep_inv hbc ih
  exact ⟨hinv.2, hinv.1⟩

/-- Witness for C6: the probe for `sda1`, mounted with pid 42 and driven
through a successful mount exit whose scan finds `BOOTX64.EFI`, holds at
most one entry. -/
theorem entries_at_most_one_witness :
    ((DeviceProbe.event ⟨some [⟨"BOOTX64.EFI", false⟩]⟩
        ((DeviceProbe.mount cMountSpawn wProbe0).1)
        (ServiceEvent.ProcessExited 42 0)).1).entries.length ≤ 1 :=
  (entries_at_most_one cNewEnv "sda1" wProbe0 _ rfl
    (Relation.ReflTransGen.tail
      (Relation.ReflTransGen.single (ProbeStep.mount cMountSpawn wProbe0 rfl))
      (ProbeStep.ev ⟨some [⟨"BOOTX64.EFI", false⟩]⟩
        (ServiceEvent.ProcessExited 42 0)
        ((DeviceProbe.mount cMountSpawn wProbe0).1)))).1

/-- C7 counterexample: with an existing probe collection empty, a
resolvable device node and a failing mount-helper spawn, `probe_partition`
still adds the probe (in state `Complete` with no entries), contradicting
the claim that a mount-spawn failure leaves the device un-added. -/
theorem probe_partition_spawn_failure_adds :
    (((Bootloader.new).probe_partition cNewEnv cMountNoSpawn "sdb").1).checked
      = [{ name := "sdb", device := ["dev", "sdb"],
           devicetype := BlockDeviceType.Other,
           point := ["var", "run", "bootloader", "mounts", "sdb"],
           state := BlockState.Complete, entries := [] }]
    ∧ (((Bootloader.new).probe_partition cNewEnv cMountNoSpawn "sdb").1).checked
        ≠ [] := by
  decide

/-- C7 (amended): `probe_partition` is a no-op returning `false` when a
probe with the name already exists; on construction failure the failure is
logged, nothing is added and `false` is returned; otherwise it immediately
attempts the mount: when `mount` errs (device already mounted, or
mount-point creation fails) the probe is dropped — not added, not retried;
when the mount-helper spawn fails the probe is still added, in state
`Complete` with no entries (not retried); and when the spawn succeeds it
is added in state `Mounting`. -/
theorem probe_partition_characterization (envN : NewEnv) (envM : MountEnv)
    (b : Bootloader) (name : String) :
    ((∃ p ∈ b.checked, p.name = name) →
      b.probe_partition envN envM name = (b, false))
    ∧ (DeviceProbe.new envN name = none → (¬∃ p ∈ b.checked, p.name = name) →
      b.probe_partition envN envM name = (b, false))
    ∧ (∀ block, DeviceProbe.new envN name = some block →
        (¬∃ p ∈ b.checked, p.name = name) →
        ((envM.device_mounted = true ∨ envM.create_dir_ok = false) →
          b.probe_partition envN envM name = (b, true))
        ∧ (envM.device_mounted = false → envM.create_dir_ok = true →
            envM.spawn = none →
            b.probe_partition envN envM name
              = (⟨b.checked ++ [{ block with state := BlockState.Complete }]⟩, true))
        ∧ (∀ pid, envM.device_mounted = false → envM.create_dir_ok = true →
            envM.spawn = some pid →
            b.probe_partition envN envM name
              = (⟨b.checked ++ [{ block with state := BlockState.Mounting pid }]⟩,
                 true))) := by
  refine ⟨?_, ?_, ?_⟩
  · intro hex
    unfold Bootloader.probe_partition
    rw [if_pos ((checked_any_iff b name).mpr hex)]
  · intro hnew hnex
    unfold Bootloader.probe_partition
    rw [if_neg (fun hc => hnex ((checked_any_iff b name).mp hc)), hnew]
  · intro block hnew hnex
    refine ⟨?_, ?_, ?_⟩
    · intro herr
      unfold Bootloader.probe_partition
      rw [if_neg (fun hc => hnex ((checked_any_iff b name).mp hc))]
      simp only [hnew, mount_err envM block herr]
    · intro h1 h2 h3
      unfold Bootloader.probe_partition
      rw [if_neg (fun hc => hnex ((checked_any_iff b name).mp hc))]
      simp only [hnew, mount_spawn_none envM block h1 h2 h3]
    · intro pid h1 h2 h3
      unfold Bootloader.probe_partition
      rw [if_neg (fun hc => hnex ((checked_any_iff b name).mp hc))]
      simp only [hnew, mount_spawn_some envM block pid h1 h2 h3]

/-- Witness for C7 (amended): the spawn-failure case at concrete inputs —
the probe is added, `Complete`, with no entries. -/
theorem probe_partition_characterization_witness :
    (Bootloader.new).probe_partition cNewEnv cMountNoSpawn "sdb"
      = (⟨[{ name := "sdb", device := ["dev", "sdb"],
             devicetype := BlockDeviceType.Other,
             point := ["var", "run", "bootloader", "mounts", "sdb"],
             state := BlockState.Complete, entries := [] }]⟩, true) :=
  ((probe_partition_characterization cNewEnv cMountNoSpawn Bootloader.new "sdb").2.2
    _ rfl (by simp [Bootloader.new])).2.1 rfl rfl rfl

/-! ## Claims (selection and state) -/

/-- C1: `select_boot_entry` returns the first entry of the first probe
found scanning priority types in order and, within a type, probes in
registration order, considering only `Complete` probes with non-empty
entries; with order `[USB, Internal]` and two such probes, one Internal
and one USB (in either registration order), it returns the USB probe's
first entry; and it returns `none` when no probe matches any type of the
order. -/
theorem select_boot_entry_correct :
    (∀ (b : Bootloader) (order : List BlockDeviceType),
      b.select_boot_entry order = select_boot_entry_spec order b.checked)
    ∧ (∀ (b : Bootloader) (order : List BlockDeviceType),
        (∀ t ∈ order, ∀ p ∈ b.checked,
          ¬(p.state = BlockState.Complete ∧ p.devicetype = t ∧ p.entries ≠ [])) →
        b.select_boot_entry order = none)
    ∧ (∀ p q : DeviceProbe,
        p.state = BlockState.Complete → q.state = BlockState.Complete →
        p.devicetype = BlockDeviceType.Internal →
        q.devicetype = BlockDeviceType.USB →
        p.entries ≠ [] → q.entries ≠ [] →
        (Bootloader.mk [p, q]).select_boot_entry
            [BlockDeviceType.USB, BlockDeviceType.Internal] = q.entries.head?
        ∧ (Bootloader.mk [q, p]).select_boot_entry
            [BlockDeviceType.USB, BlockDeviceType.Internal] = q.entries.head?) := by
  refine ⟨select_boot_entry_eq_spec, ?_, ?_⟩
  · intro b order h
    induction order with
    | nil => rfl
    | cons t ts ih =>
      rw [Bootloader.select_boot_entry,
        selectInType_eq_none t b.checked (h t (List.mem_cons_self t ts))]
      exact ih fun u hu => h u (List.mem_cons_of_mem t hu)
  · intro p q hps hqs hpt hqt hpe hqe
    obtain ⟨e, rest, hq⟩ := List.exists_cons_of_ne_nil hqe
    have hqh : q.entries.head? = some e := by rw [hq]; rfl
    have hpbad : ¬(p.state = BlockState.Complete
        ∧ p.devicetype = BlockDeviceType.USB ∧ p.entries ≠ []) := by
      intro hcon
      rw [hpt] at hcon
      exact absurd hcon.2.1 (by decide)
    constructor
    · show Bootloader.select_boot_entry ⟨[p, q]⟩ _ = _
      rw [Bootloader.select_boot_entry, selectInType, if_neg hpbad, selectInType,
        if_pos ⟨hqs, hqt, hqe⟩, hqh]
    · show Bootloader.select_boot_entry ⟨[q, p]⟩ _ = _
      rw [Bootloader.select_boot_entry, selectInType, if_pos ⟨hqs, hqt, hqe⟩, hqh]

/-- Witness for C1: the USB-priority scenario at concrete probes. -/
theorem select_boot_entry_correct_witness :
    (Bootloader.mk [sampleInternal, sampleUSB]).select_boot_entry
        [BlockDeviceType.USB, BlockDeviceType.Internal]
      = sampleUSB.entries.head? :=
  ((select_boot_entry_correct.2.2 sampleInternal sampleUSB rfl rfl rfl rfl
    (by decide) (by decide)).1)

/-- C10: `Bootloader::state` returns `Inactive` exactly when the probe
collection is empty, `Running` whenever at least one probe exists, and
never returns `Ready`, `Stopped` or `Failed`. -/
theorem bootloader_state_characterization (b : Bootloader) :
    (b.state = ServiceState.Inactive ↔ b.checked = [])
    ∧ (b.checked ≠ [] → b.state = ServiceState.Running)
    ∧ (b.state = ServiceState.Inactive ∨ b.state = ServiceState.Running) := by
  unfold Bootloader.state
  by_cases h : b.checked.length = 0
  · simp [h, List.length_eq_zero.mp h]
  · have : b.checked ≠ [] := fun hnil => h (by simp [hnil])
    simp [h, this]

/-- Witness for C10: a bootloader holding one completed probe is
`Running`, an empty one is `Inactive`. -/
theorem bootloader_state_characterization_witness :
    Bootloader.state ⟨[sampleInternal]⟩ = ServiceState.Running
    ∧ Bootloader.state ⟨[]⟩ = ServiceState.Inactive :=
  ⟨(bootloader_state_characterization ⟨[sampleInternal]⟩).2.1 (by decide),
   (bootloader_state_characterization ⟨[]⟩).1.mpr rfl⟩

/-! ## Name uniqueness over the bootloader's collection -/

/-- The probe loop of `Bootloader::event` changes no probe's name. -/
lemma probesEvent_names (envs : Nat → ScanEnv) (e : ServiceEvent)
    (l : List DeviceProbe) (k : Nat) :
    ((probesEvent envs e l k).1).map (fun p => p.name)
      = l.map (fun p => p.name) := by
  induction l generalizing k with
  | nil => rfl
  | cons p rest ih => simp [probesEvent, event_name, ih]

/-- `probe_partition` preserves the pairwise distinctness of the probe
names: it pushes only after the membership check fails, and the pushed
probe carries the probed name. -/
lemma probe_partition_nodup (envN : NewEnv) (envM : MountEnv) (b : Bootloader)
    (name : String) (h : (b.checked.map (fun p => p.name)).Nodup) :
    ((((b.probe_partition envN envM name).1).checked.map (fun p => p.name))).Nodup := by
  by_cases hmem : b.checked.any (fun i => i.name = name) = true
  · unfold Bootloader.probe_partition
    rw [if_pos hmem]
    exact h
  · cases hnew : DeviceProbe.new envN name with
    | none =>
      unfold Bootloader.probe_partition
      rw [if_neg hmem]
      simp only [hnew]
      exact h
    | some block =>
      cases hm : DeviceProbe.mount envM block with
      | mk block2 ok =>
        have hbn : block2.name = name := by
          have h1 : block2 = (DeviceProbe.mount envM block).1 := by rw [hm]
          rw [h1, mount_name]
          exact (new_fields envN name block hnew).2.2
        have hnin : name ∉ b.checked.map (fun p => p.name) := by
          intro hin
          apply hmem
          rw [checked_any_iff]
          simpa using hin
        unfold Bootloader.probe_partition
        rw [if_neg hmem]
        simp only [hnew, hm]
        cases ok with
        | false => exact h
        | true =>
          show ((b.checked ++ [block2]).map (fun p => p.name)).Nodup
          rw [List.map_append]
          simp only [List.map_cons, List.map_nil, hbn]
          refine List.Nodup.append h (List.nodup_singleton name) ?_
          intro a ha hb2
          rw [List.mem_singleton] at hb2
          subst hb2
          exact hnin ha

/-- The hotplug arm preserves the pairwise distinctness of probe names. -/
lemma hotplugAdd_nodup (env : BootEventEnv) (b2 : Bootloader)
    (dev : UeventRecord) (h : (b2.checked.map (fun p => p.name)).Nodup) :
    (((hotplugAdd env b2 dev).1).checked.map (fun p => p.name)).Nodup := by
  unfold hotplugAdd
  split
  · split
    · split
      · split
        · split
          · exact h
          · exact probe_partition_nodup env.envN env.envM b2 _ h
        · exact h
      · exact h
    · exact h
  · exact h

/-- `Bootloader::event` preserves the pairwise distinctness of probe
names: the probe loop renames nothing, and the hotplug path adds through
`probe_partition`. -/
lemma bootloader_event_nodup (env : BootEventEnv) (b : Bootloader)
    (e : ServiceEvent) (h : (b.checked.map (fun p => p.name)).Nodup) :
    (((b.event env e).1).checked.map (fun p => p.name)).Nodup := by
  have h2 : ((probesEvent env.scanEnvs e b.checked 0).1.map
      (fun p => p.name)).Nodup := by
    rw [probesEvent_names]
    exact h
  unfold Bootloader.event
  rcases hr : probesEvent env.scanEnvs e b.checked 0 with ⟨checked2, handled⟩
  rw [hr] at h2
  cases handled with
  | true => exact h2
  | false =>
    cases e with
    | ProcessExited pid status => exact h2
    | Device dev => exact hotplugAdd_nodup env ⟨checked2⟩ dev h2

/-- Every sequence of program operations preserves name distinctness. -/
lemma run_nodup (ops : List BootOp) (b : Bootloader)
    (hb : (b.checked.map (fun x => x.name)).Nodup) :
    (((b.run ops).checked.map (fun x => x.name))).Nodup := by
  induction ops generalizing b with
  | nil => exact hb
  | cons op rest ih =>
    refine ih _ ?_
    cases op with
    | probe envN envM name => exact probe_partition_nodup envN envM b name hb
    | ev env e => exact bootloader_event_nodup env b e hb

/-- C8: starting from an empty `Bootloader`, after any sequence of
`probe_partition` calls and dispatched events (covering both start-time
enumeration and hotplug arrivals), probes with equal names are the same
probe — the name is unique across the collection. -/
theorem probe_names_unique (ops : List BootOp) (p q : DeviceProbe)
    (hp : p ∈ ((Bootloader.new).run ops).checked)
    (hq : q ∈ ((Bootloader.new).run ops).checked)
    (hname : p.name = q.name) : p = q :=
  List.inj_on_of_nodup_map
    (run_nodup ops Bootloader.new (by simp [Bootloader.new])) hp hq hname

/-- Witness for C8: after probing `sda1` once, the single resulting probe
is equal to itself. -/
theorem probe_names_unique_witness :
    { wProbe0 with state := BlockState.Mounting 42 }
        ∈ ((Bootloader.new).run [BootOp.probe cNewEnv cMountSpawn "sda1"]).checked
    ∧ { wProbe0 with state := BlockState.Mounting 42 }
        = { wProbe0 with state := BlockState.Mounting 42 } :=
  ⟨by decide,
   probe_names_unique [BootOp.probe cNewEnv cMountSpawn "sda1"]
     { wProbe0 with state := BlockState.Mounting 42 }
     { wProbe0 with state := BlockState.Mounting 42 }
     (by decide) (by decide) rfl⟩

/-! ## Device classification (C9) -/

/-- C9 counterexample: a sysfs chain in which the ancestor directory found
by the `scsi_host` walk has its own `subsystem` link resolving to `usb`,
yet `block_device_type` classifies the device Internal — because the code
reads `subsystem` through `host/../subsystem` (the ancestor's parent), not
the ancestor's own link, which the spec-worded definition
`block_device_type_specC9` does. -/
theorem block_device_type_ancestor_counterexample :
    block_device_type c9Env "sda" = BlockDeviceType.Internal
    ∧ walk_path_has_subdir c9Env "scsi_host" ["sys", "dev", "disk"]
        = some ["sys", "dev"]
    ∧ c9Env.readLinkFileName (["sys", "dev"] ++ ["subsystem"]) = some "usb"
    ∧ block_device_type_specC9 c9Env "sda" = BlockDeviceType.USB := by
  decide

/-- C9 (amended): `block_device_type` returns Internal when the backing
device's subsystem resolves to `virtio`; when it resolves to `scsi` it
walks upward for a directory containing `scsi_host` and returns USB
exactly when that walk succeeds and the `subsystem` link read through the
found directory joined with `../subsystem` (that directory's parent)
resolves to `usb`, Internal otherwise; any other or unresolved subsystem,
or no backing device, gives Other; and it never returns Network. -/
theorem block_device_type_characterization (env : SysfsEnv) (name : String) :
    (env.blockDevicePath name = none →
      block_device_type env name = BlockDeviceType.Other)
    ∧ (∀ dp, env.blockDevicePath name = some dp →
        (env.readLinkFileName (dp ++ ["subsystem"]) = none →
          block_device_type env name = BlockDeviceType.Other)
        ∧ (∀ sub, env.readLinkFileName (dp ++ ["subsystem"]) = some sub →
            (sub = "virtio" →
              block_device_type env name = BlockDeviceType.Internal)
            ∧ (sub = "scsi" →
                (block_device_type env name = BlockDeviceType.USB
                  ↔ ∃ host, walk_path_has_subdir env "scsi_host" dp = some host
                      ∧ env.readLinkFileName (host ++ ["..", "subsystem"])
                          = some "usb")
                ∧ (block_device_type env name = BlockDeviceType.USB
                    ∨ block_device_type env name = BlockDeviceType.Internal))
            ∧ (sub ≠ "virtio" → sub ≠ "scsi" →
                block_device_type env name = BlockDeviceType.Other)))
    ∧ block_device_type env name ≠ BlockDeviceType.Network := by
  refine ⟨?_, ?_, ?_⟩
  · intro h
    simp [block_device_type, h]
  · intro dp hdp
    refine ⟨?_, ?_⟩
    · intro h
      simp [block_device_type, hdp, h]
    · intro sub hsub
      refine ⟨?_, ?_, ?_⟩
      · intro hv
        subst hv
        simp [block_device_type, hdp, hsub]
      · intro hs
        subst hs
        constructor
        · constructor
          · intro husb
            rcases hw : walk_path_has_subdir env "scsi_host" dp with _ | host
            · simp [block_device_type, hdp, hsub, hw] at husb
            · rcases hr : env.readLinkFileName (host ++ ["..", "subsystem"])
                with _ | s2
              · simp [block_device_type, hdp, hsub, hw, hr] at husb
              · by_cases h2 : s2 = "usb"
                · exact ⟨host, rfl, h2 ▸ hr⟩
                · simp [block_device_type, hdp, hsub, hw, hr, h2] at husb
          · rintro ⟨host, hw, hr⟩
            simp [block_device_type, hdp, hsub, hw, hr]
        · rcases hw : walk_path_has_subdir env "scsi_host" dp with _ | host
          · simp [block_device_type, hdp, hsub, hw]
          · rcases hr : env.readLinkFileName (host ++ ["..", "subsystem"])
              with _ | s2
            · simp [block_device_type, hdp, hsub, hw, hr]
            · by_cases h2 : s2 = "usb" <;>
                simp [block_device_type, hdp, hsub, hw, hr, h2]
      · intro hnv hns
        simp [block_device_type, hdp, hsub, hnv, hns]
  · rcases hbp : env.blockDevicePath name with _ | dp
    · simp [block_device_type, hbp]
    · rcases hsub : env.readLinkFileName (dp ++ ["subsystem"]) with _ | sub
      · simp [block_device_type, hbp, hsub]
      · by_cases hv : sub = "virtio"
        · simp [block_device_type, hbp, hsub, hv]
        · by_cases hs : sub = "scsi"
          · rcases hw : walk_path_has_subdir env "scsi_host" dp with _ | host
            · simp [block_device_type, hbp, hsub, hv, hs, hw]
            · rcases hr : env.readLinkFileName (host ++ ["..", "subsystem"])
                with _ | s2
              · simp [block_device_type, hbp, hsub, hv, hs, hw, hr]
              · by_cases h2 : s2 = "usb" <;>
                  simp [block_device_type, hbp, hsub, hv, hs, hw, hr, h2]
          · simp [block_device_type, hbp, hsub, hv, hs]

/-- Witness for C9 (amended): a name with no backing device classifies as
Other. -/
theorem block_device_type_characterization_witness :
    block_device_type c9Env "sdx" = BlockDeviceType.Other :=
  (block_device_type_characterization c9Env "sdx").1 rfl

end SimpleInit
